import Mathlib

/-!
Shallow embedding of the fwew-react search screen
(src/components/fwew-screen.tsx) and proofs about its
endpoint derivation, fetch/state lifecycle and modal handling.
-/

namespace FwewScreen

/-- Modelled from the spec: `Word` (lib/interfaces/word is not under src/)
is an opaque structured record returned by the remote service; we model it
as a wrapper around an opaque payload. -/
structure Word where
  payload : String
deriving DecidableEq, Repr

/-- Modelled from the spec: `FwewError` (lib/interfaces/fwew-error is not
under src/) is an opaque structured error body returned by the remote
service on failure. -/
structure FwewError where
  message : String
deriving DecidableEq, Repr

/-- Models the TypeScript `{} as Word` placeholder used to initialise
`selectedItem` before any entry has been selected. -/
def emptyWord : Word := ⟨""⟩

/--
The screen-local React state of `FwewScreen` (lines 61-66 of
fwew-screen.tsx):
`isLoading` (`useState(true)`), `text` (`useState('')`),
`data` (`useState([] as Word[])`), `err` (`useState({} as FwewError)`,
modelled as `Option FwewError` with `none` for the empty placeholder),
`isModalVisible` (`useState(false)`) and `selectedItem`
(`useState({} as Word)`).
-/
structure SearchState where
  text : String
  isLoading : Bool
  data : List Word
  err : Option FwewError
  isModalVisible : Bool
  selectedItem : Word
deriving DecidableEq, Repr

/-- The initial state produced by the `useState` initialisers. -/
def initialSearchState : SearchState :=
  { text := ""
  , isLoading := true
  , data := []
  , err := none
  , isModalVisible := false
  , selectedItem := emptyWord }

/-- The Fwew settings slice relevant to this screen: the search direction
flag read from `settingsFwew` and persisted via `onUpdateSettingsFwew`. -/
structure SettingsFwew where
  isReverseEnabled : Bool
deriving DecidableEq, Repr

/--
`getEndpoint` (fwew-screen.tsx lines 147-155): derives the API endpoint
from the query text, the direction flag and the language code.  `apiRoot`
(lib/settings, not under src/) is the configured base URL and is passed as
a parameter; the JS falsiness test `!text` is the empty-string test here.
-/
def getEndpoint (apiRoot : String) (isReverseEnabled : Bool)
    (languageCode : String) (text : String) : String :=
  if text = "" then
    apiRoot ++ "/list/"
  else if isReverseEnabled then
    apiRoot ++ "/fwew/r/" ++ languageCode ++ "/" ++ text
  else
    apiRoot ++ "/fwew/" ++ text

/-- Upper-case hexadecimal digit for `n < 16`, as produced by JavaScript
percent-escaping. -/
def uriHexDigit (n : Nat) : Char :=
  if n < 10 then Char.ofNat (48 + n) else Char.ofNat (55 + n)

/-- `%XX` escape of one byte. -/
def percentEscapeByte (b : Nat) : List Char :=
  [Char.ofNat 37, uriHexDigit (b / 16), uriHexDigit (b % 16)]

/-- UTF-8 byte sequence of a Unicode code point, used by JavaScript
percent-escaping of non-ASCII characters. -/
def utf8Bytes (n : Nat) : List Nat :=
  if n < 128 then [n]
  else if n < 2048 then [192 + n / 64, 128 + n % 64]
  else if n < 65536 then [224 + n / 4096, 128 + (n / 64) % 64, 128 + n % 64]
  else [240 + n / 262144, 128 + (n / 4096) % 64, 128 + (n / 64) % 64,
        128 + n % 64]

/-- The characters JavaScript's `encodeURI` leaves unescaped: ASCII
alphanumerics, the unreserved marks, and all URI-reserved characters
(`; , / ? : @ & = + $ #`), apostrophe included (`Char.ofNat 39`). -/
def encodeURIUnescaped (c : Char) : Bool :=
  c.isAlphanum ||
    [';', ',', '/', '?', ':', '@', '&', '=', '+', '$', '-', '_', '.', '!',
     '~', '*', Char.ofNat 39, '(', ')', '#'].contains c

/-- `encodeURI` on a single character: kept verbatim when unescaped,
otherwise percent-escaped byte-by-byte in UTF-8. -/
def encodeURIChar (c : Char) : List Char :=
  if encodeURIUnescaped c then [c]
  else (utf8Bytes c.toNat).flatMap percentEscapeByte

/-- JavaScript's global `encodeURI`, applied by `fetchData`
(fwew-screen.tsx line 167: `axios.get<Word[]>(encodeURI(endpoint))`) to the
whole endpoint URL before the request is issued. -/
def encodeURI (s : String) : String :=
  String.mk (s.data.flatMap encodeURIChar)

/-- Modelled from the spec: percent-encoding of the query text as a URL
path segment ("Text is percent-encoded before use as a URL path segment";
no such encoder exists in the source).  Every character that is not allowed
in a path segment — outside RFC 3986 `pchar`: alphanumerics, `-._~`, the
sub-delims, `:` and `@` — and in particular the reserved characters `/`,
`?` and `#`, is percent-escaped via its UTF-8 bytes. -/
def specEncodePathSegment (s : String) : String :=
  String.mk (s.data.flatMap fun c =>
    if c.isAlphanum ||
        ['-', '.', '_', '~', '!', '$', '&', Char.ofNat 39, '(', ')', '*',
         '+', ',', ';', '=', ':', '@'].contains c then [c]
    else (utf8Bytes c.toNat).flatMap percentEscapeByte)

/-- The URL the screen actually fetches for a given query text:
`getEndpoint` followed by `encodeURI` (fwew-screen.tsx lines 164-167). -/
def issuedURL (apiRoot : String) (isReverseEnabled : Bool)
    (languageCode : String) (text : String) : String :=
  encodeURI (getEndpoint apiRoot isReverseEnabled languageCode text)

/-- `setIsLoading(true)` at the start of `fetchData`
(fwew-screen.tsx line 165).  `fetchData` touches no other state field
before the response arrives. -/
def fetchStart (s : SearchState) : SearchState :=
  { s with isLoading := true }

/-- The possible outcomes of one `axios.get`, as discriminated by the
`.then`/`.catch` code of `fetchData` (fwew-screen.tsx lines 168-179):
a success carrying the response records; an `AxiosError` whose `response`
carries a structured `FwewError` body; an `AxiosError` without a response
body; or a non-Axios failure. -/
inductive FetchOutcome where
  | success (ws : List Word)
  | axiosErrorStructured (body : FwewError)
  | axiosErrorNoBody
  | nonAxiosFailure
deriving DecidableEq, Repr

/-- The state update performed when a fetch settles
(fwew-screen.tsx lines 168-179):
on success, `setData(response.data); setIsLoading(false)`;
on an `AxiosError` with a structured body, `setErr(body); setData([]);
setIsLoading(false)`;
on an `AxiosError` without a response (`serverError.response` is
`undefined`), evaluating `serverError.response.data` throws inside the
`.catch` callback before any setter runs, so the state is unchanged;
on a non-Axios failure the `if (axios.isAxiosError(e))` guard fails and
the state is unchanged. -/
def applyOutcome (s : SearchState) : FetchOutcome → SearchState
  | .success ws => { s with data := ws, isLoading := false }
  | .axiosErrorStructured body =>
      { s with err := some body, data := [], isLoading := false }
  | .axiosErrorNoBody => s
  | .nonAxiosFailure => s

/-- The URL requested by `searchData` (fwew-screen.tsx lines 183-190):
the list endpoint when the new text is empty, `getEndpoint` otherwise. -/
def searchRequestURL (apiRoot : String) (isReverseEnabled : Bool)
    (languageCode newText : String) : String :=
  if newText = "" then encodeURI (apiRoot ++ "/list/")
  else encodeURI (getEndpoint apiRoot isReverseEnabled languageCode newText)

/-- `searchData` (fwew-screen.tsx lines 183-190): sets the text, then calls
`fetchData`, which flips `isLoading` on and issues the request; returns the
new state together with the requested URL. -/
def searchData (apiRoot : String) (isReverseEnabled : Bool)
    (languageCode : String) (s : SearchState) (newText : String) :
    SearchState × String :=
  (fetchStart { s with text := newText },
   searchRequestURL apiRoot isReverseEnabled languageCode newText)

/-- `onRefresh` (fwew-screen.tsx lines 158-161): `setData([])`, then
`fetchData(getEndpoint(text))` on the current text. -/
def onRefresh (apiRoot : String) (isReverseEnabled : Bool)
    (languageCode : String) (s : SearchState) : SearchState × String :=
  (fetchStart { s with data := [] },
   encodeURI (getEndpoint apiRoot isReverseEnabled languageCode s.text))

/-- `toggleReverse` (fwew-screen.tsx lines 193-205): computes the flipped
flag, always persists it via `onUpdateSettingsFwew` (returned as the first
component), then returns early when the text is empty, and otherwise starts
a fetch whose URL is built from the flipped flag. -/
def toggleReverse (apiRoot languageCode : String) (fw : SettingsFwew)
    (s : SearchState) : SettingsFwew × SearchState × Option String :=
  let newIsReverseEnabled := !fw.isReverseEnabled
  let fw' : SettingsFwew := { isReverseEnabled := newIsReverseEnabled }
  if s.text = "" then (fw', s, none)
  else if newIsReverseEnabled then
    (fw', fetchStart s,
     some (encodeURI (apiRoot ++ "/fwew/r/" ++ languageCode ++ "/" ++ s.text)))
  else
    (fw', fetchStart s, some (encodeURI (apiRoot ++ "/fwew/" ++ s.text)))

/-- `toggleModal` (fwew-screen.tsx lines 141-144): flips the modal
visibility flag and stores the given item as the selected one.  Dismissal
(line 239) calls it with the current `selectedItem`. -/
def toggleModal (s : SearchState) (item : Word) : SearchState :=
  { s with isModalVisible := !s.isModalVisible, selectedItem := item }

/-- The render (fwew-screen.tsx line 217) shows the loading spinner under
`⟨If condition=\x7bisLoading\x7d⟩`. -/
def showsSpinner (s : SearchState) : Bool := s.isLoading

/-- The render (fwew-screen.tsx line 224) shows the result-count and
word-list area under `⟨If condition=\x7b!isLoading\x7d⟩`. -/
def showsResults (s : SearchState) : Bool := !s.isLoading

/-- The whole app-visible state: the persisted Fwew settings, the screen
state, and the multiset of in-flight request URLs (requests are never
cancelled; fwew-screen.tsx has no cleanup). -/
structure AppState where
  fw : SettingsFwew
  screen : SearchState
  pending : List String
deriving DecidableEq, Repr

/-- The state right after mount: the `useState` initialisers plus the
mount effect `fetchData(apiRoot ++ "/list/")` (fwew-screen.tsx lines
77-79), which leaves `isLoading` at `true` and puts the list request in
flight.  `fw0` is whatever direction flag the SettingsStore holds. -/
def initialApp (apiRoot : String) (fw0 : SettingsFwew) : AppState :=
  { fw := fw0
  , screen := initialSearchState
  , pending := [encodeURI (apiRoot ++ "/list/")] }

/-- `searchData` lifted to the app state: updates the screen and adds the
request to the in-flight list. -/
def appSearch (apiRoot languageCode : String) (a : AppState)
    (newText : String) : AppState :=
  let p := searchData apiRoot a.fw.isReverseEnabled languageCode a.screen
    newText
  { a with screen := p.1, pending := p.2 :: a.pending }

/-- `onRefresh` lifted to the app state. -/
def appRefresh (apiRoot languageCode : String) (a : AppState) : AppState :=
  let p := onRefresh apiRoot a.fw.isReverseEnabled languageCode a.screen
  { a with screen := p.1, pending := p.2 :: a.pending }

/-- `toggleReverse` lifted to the app state: persists the new settings and,
when a fetch was started, adds its URL to the in-flight list. -/
def appToggleReverse (apiRoot languageCode : String) (a : AppState) :
    AppState :=
  let r := toggleReverse apiRoot languageCode a.fw a.screen
  match r.2.2 with
  | none => { a with fw := r.1, screen := r.2.1 }
  | some url => { fw := r.1, screen := r.2.1, pending := url :: a.pending }

/-- Settlement of one in-flight request: the screen state is updated by
`applyOutcome` and the request leaves the in-flight list.  The outcome is
unconstrained because the remote service is external. -/
def appComplete (a : AppState) (url : String) (o : FetchOutcome) :
    AppState :=
  { a with screen := applyOutcome a.screen o, pending := a.pending.erase url }

/-- `toggleModal` lifted to the app state. -/
def appToggleModal (a : AppState) (item : Word) : AppState :=
  { a with screen := toggleModal a.screen item }

/-- One event of the screen's life: a keystroke, a pull-to-refresh, a
direction toggle, the settlement of an in-flight request, or a modal
toggle.  All handlers run on the single UI thread, so events are
interleaved atomically. -/
inductive Step (apiRoot languageCode : String) : AppState → AppState → Prop
where
  | search (a : AppState) (newText : String) :
      Step apiRoot languageCode a (appSearch apiRoot languageCode a newText)
  | refresh (a : AppState) :
      Step apiRoot languageCode a (appRefresh apiRoot languageCode a)
  | toggleRev (a : AppState) :
      Step apiRoot languageCode a
        (appToggleReverse apiRoot languageCode a)
  | complete (a : AppState) (url : String) (o : FetchOutcome)
      (h : url ∈ a.pending) :
      Step apiRoot languageCode a (appComplete a url o)
  | modal (a : AppState) (item : Word) :
      Step apiRoot languageCode a (appToggleModal a item)

/-- The states the mounted screen can reach. -/
def Reachable (apiRoot languageCode : String) (fw0 : SettingsFwew)
    (a : AppState) : Prop :=
  Relation.ReflTransGen (Step apiRoot languageCode) (initialApp apiRoot fw0) a

/-- C1: for every base URL, text, reverse flag and language code,
`getEndpoint` returns exactly one of the three literal URL shapes —
`<base>/list/` when the text is empty, `<base>/fwew/r/<languageCode>/<text>`
when reverse is enabled, and `<base>/fwew/<text>` otherwise — and in
particular `getEndpoint` on `"fmawn"` (forward) gives `<base>/fwew/fmawn`
and on `"forest"` (reverse, language `en`) gives
`<base>/fwew/r/en/forest`. -/
theorem C1_getEndpoint_three_shapes (apiRoot languageCode text : String)
    (isReverseEnabled : Bool) :
    ((text = "" ∧
        getEndpoint apiRoot isReverseEnabled languageCode text
          = apiRoot ++ "/list/")
      ∨ (text ≠ "" ∧ isReverseEnabled = true ∧
        getEndpoint apiRoot isReverseEnabled languageCode text
          = apiRoot ++ "/fwew/r/" ++ languageCode ++ "/" ++ text)
      ∨ (text ≠ "" ∧ isReverseEnabled = false ∧
        getEndpoint apiRoot isReverseEnabled languageCode text
          = apiRoot ++ "/fwew/" ++ text))
    ∧ getEndpoint apiRoot false "en" "fmawn" = apiRoot ++ "/fwew/fmawn"
    ∧ getEndpoint apiRoot true "en" "forest"
        = apiRoot ++ "/fwew/r/en/forest" := by
  refine ⟨?_, ?_, ?_⟩
  · by_cases h : text = ""
    · exact Or.inl ⟨h, by simp [getEndpoint, h]⟩
    · cases hr : isReverseEnabled
      · exact Or.inr (Or.inr ⟨h, rfl, by simp [getEndpoint, h]⟩)
      · exact Or.inr (Or.inl ⟨h, rfl, by simp [getEndpoint, h]⟩)
  · have h1 : getEndpoint apiRoot false "en" "fmawn"
        = apiRoot ++ "/fwew/" ++ "fmawn" := rfl
    rw [h1, String.append_assoc]; rfl
  · have h2 : getEndpoint apiRoot true "en" "forest"
        = apiRoot ++ "/fwew/r/" ++ "en" ++ "/" ++ "forest" := rfl
    rw [h2]; simp only [String.append_assoc]; rfl

/-- C9: for every base URL and language code, `getEndpoint` on the empty
text yields `<base>/list/` for both values of the reverse flag — the
direction flag is irrelevant when the text is empty. -/
theorem C9_empty_text_direction_irrelevant (apiRoot languageCode : String) :
    getEndpoint apiRoot true languageCode "" = apiRoot ++ "/list/"
    ∧ getEndpoint apiRoot false languageCode "" = apiRoot ++ "/list/" :=
  ⟨rfl, rfl⟩

/-- C5: for every fetch that fails as an HTTP-transport error carrying a
structured error body, the resulting state has empty results, the response
body as the error, and `isLoading` off. -/
theorem C5_structured_error_state (s : SearchState) (body : FwewError) :
    (applyOutcome s (.axiosErrorStructured body)).data.length = 0
    ∧ (applyOutcome s (.axiosErrorStructured body)).err = some body
    ∧ (applyOutcome s (.axiosErrorStructured body)).isLoading = false :=
  ⟨rfl, rfl, rfl⟩

/-- C6: a fetch failure without a structured error body — an `AxiosError`
with no response body, or a non-Axios failure — is swallowed with no change
to the state, so after the `fetchStart` that began the fetch, `isLoading`
remains `true` (and `text`, `data` and `err` are unchanged): the UI can
stay in the loading state indefinitely. -/
theorem C6_unstructured_failure_swallowed (s : SearchState) :
    applyOutcome (fetchStart s) .axiosErrorNoBody = fetchStart s
    ∧ applyOutcome (fetchStart s) .nonAxiosFailure = fetchStart s
    ∧ (applyOutcome (fetchStart s) .axiosErrorNoBody).isLoading = true
    ∧ (applyOutcome (fetchStart s) .nonAxiosFailure).isLoading = true
    ∧ (applyOutcome (fetchStart s) .axiosErrorNoBody).data = s.data
    ∧ (applyOutcome (fetchStart s) .axiosErrorNoBody).err = s.err
    ∧ (applyOutcome (fetchStart s) .axiosErrorNoBody).text = s.text :=
  ⟨rfl, rfl, rfl, rfl, rfl, rfl, rfl⟩

/-- C10: `toggleModal` changes only the modal-visibility flag and the
selected record: it flips `isModalVisible`, sets `selectedItem` to the
given item, and leaves `text`, `data`, `err` and `isLoading` unchanged;
dismissal passes the current `selectedItem` back, retaining it. -/
theorem C10_toggleModal_frame (s : SearchState) (item : Word) :
    (toggleModal s item).isModalVisible = !s.isModalVisible
    ∧ (toggleModal s item).selectedItem = item
    ∧ (toggleModal s item).text = s.text
    ∧ (toggleModal s item).data = s.data
    ∧ (toggleModal s item).err = s.err
    ∧ (toggleModal s item).isLoading = s.isLoading
    ∧ (toggleModal s s.selectedItem).selectedItem = s.selectedItem :=
  ⟨rfl, rfl, rfl, rfl, rfl, rfl, rfl⟩

/-- C7: `toggleReverse` always flips `isReverseEnabled` and persists the
flipped flag (the returned settings are what `onUpdateSettingsFwew`
receives); when the query text is non-empty it starts exactly one fetch
whose URL is the issued URL under the new, flipped direction; when the
text is empty it starts no fetch and leaves the screen state unchanged. -/
theorem C7_toggleReverse_effects (apiRoot languageCode : String)
    (fw : SettingsFwew) (s : SearchState) :
    (toggleReverse apiRoot languageCode fw s).1.isReverseEnabled
        = !fw.isReverseEnabled
    ∧ (s.text = "" →
        toggleReverse apiRoot languageCode fw s
          = (⟨!fw.isReverseEnabled⟩, s, none))
    ∧ (s.text ≠ "" →
        (toggleReverse apiRoot languageCode fw s).2.1 = fetchStart s
        ∧ (toggleReverse apiRoot languageCode fw s).2.2
            = some (issuedURL apiRoot (!fw.isReverseEnabled) languageCode
                s.text)) := by
  refine ⟨?_, ?_, ?_⟩
  · cases hr : fw.isReverseEnabled <;>
      by_cases h : s.text = "" <;> simp [toggleReverse, h, hr]
  · intro h
    cases hr : fw.isReverseEnabled <;> simp [toggleReverse, h, hr]
  · intro h
    cases hr : fw.isReverseEnabled <;>
      simp [toggleReverse, issuedURL, getEndpoint, h, hr]

/-- Witness for C7 at concrete inputs: with empty text only the flag
changes and no fetch starts; with text `"x"` and forward direction, the
toggle starts one fetch for the reverse endpoint. -/
theorem C7_toggleReverse_effects_witness :
    toggleReverse "http://x" "en" ⟨false⟩ initialSearchState
      = (⟨true⟩, initialSearchState, none)
    ∧ (toggleReverse "http://x" "en" ⟨false⟩
        { initialSearchState with text := "x" }).2.2
      = some (issuedURL "http://x" true "en" "x") :=
  ⟨(C7_toggleReverse_effects "http://x" "en" ⟨false⟩
      initialSearchState).2.1 rfl,
   ((C7_toggleReverse_effects "http://x" "en" ⟨false⟩
      { initialSearchState with text := "x" }).2.2 (by decide)).2⟩

/-- C8 counterexample: the claim says every character not allowed in a
path segment — `?` among them — appears percent-escaped in the fetched
URL.  For the query text `a?b` (forward, language `en`, base `http://x`)
the URL actually issued keeps the `?` verbatim and differs from the URL
built with the spec's path-segment percent-encoding (`a%3Fb`). -/
theorem C8_counterexample_question_mark_unescaped :
    issuedURL "http://x" false "en" "a?b" = "http://x/fwew/a?b"
    ∧ specEncodePathSegment "a?b" = "a%3Fb"
    ∧ issuedURL "http://x" false "en" "a?b"
        ≠ "http://x/fwew/" ++ specEncodePathSegment "a?b" :=
  ⟨by decide, by decide, by decide⟩

/-- C8 amended: the request URL actually issued is `encodeURI` applied to
the whole endpoint URL.  `encodeURI` percent-escapes characters outside
its allowed set (space, for example, becomes `%20`) but leaves every
URI-reserved character — `/`, `?` and `#` among them — unescaped, so the
query text is not percent-encoded as a URL path segment. -/
theorem C8_encodeURI_whole_url (apiRoot languageCode text : String)
    (isReverseEnabled : Bool) :
    issuedURL apiRoot isReverseEnabled languageCode text
      = encodeURI (getEndpoint apiRoot isReverseEnabled languageCode text)
    ∧ encodeURIChar '/' = ['/']
    ∧ encodeURIChar '?' = ['?']
    ∧ encodeURIChar '#' = ['#']
    ∧ encodeURIChar ' ' = ['%', '2', '0']
    ∧ encodeURI "a?b/c#d" = "a?b/c#d"
    ∧ encodeURI "a b" = "a%20b" :=
  ⟨rfl, by decide, by decide, by decide, by decide, by decide, by decide⟩

/-- C2 counterexample: the claim says every fetch trigger resets the
results to empty at the start of the fetch.  In the reachable state where
the mount listing succeeded with one record and the user then typed `x`,
the text-change fetch has started (`isLoading = true`) while the results
still hold the old record. -/
theorem C2_counterexample_text_change_keeps_results :
    Reachable "http://x" "en" ⟨false⟩
      (appSearch "http://x" "en"
        (appComplete (initialApp "http://x" ⟨false⟩) "http://x/list/"
          (.success [⟨"kaltxi"⟩])) "x")
    ∧ (appSearch "http://x" "en"
        (appComplete (initialApp "http://x" ⟨false⟩) "http://x/list/"
          (.success [⟨"kaltxi"⟩])) "x").screen.isLoading = true
    ∧ (appSearch "http://x" "en"
        (appComplete (initialApp "http://x" ⟨false⟩) "http://x/list/"
          (.success [⟨"kaltxi"⟩])) "x").screen.data = [⟨"kaltxi"⟩] := by
  refine ⟨?_, by decide, by decide⟩
  exact Relation.ReflTransGen.tail
    (Relation.ReflTransGen.tail Relation.ReflTransGen.refl
      (Step.complete _ "http://x/list/" (.success [⟨"kaltxi"⟩]) (by decide)))
    (Step.search _ "x")

/-- C2 amended: results are reset to empty at the start of the fetch only
for pull-to-refresh (`onRefresh` runs `setData([])`); a text change and a
direction toggle start their fetch with the results unchanged, and the
mount fetch starts from the initial (already empty) results. -/
theorem C2_only_refresh_clears_results (apiRoot languageCode : String)
    (fw0 : SettingsFwew) (a : AppState) (newText : String) :
    (appRefresh apiRoot languageCode a).screen.data = []
    ∧ (appSearch apiRoot languageCode a newText).screen.data = a.screen.data
    ∧ (appToggleReverse apiRoot languageCode a).screen.data = a.screen.data
    ∧ (initialApp apiRoot fw0).screen.data = [] := by
  refine ⟨rfl, rfl, ?_, rfl⟩
  unfold appToggleReverse toggleReverse
  by_cases h : a.screen.text = "" <;>
    cases hr : a.fw.isReverseEnabled <;> simp [h, hr, fetchStart]

/-- C3 counterexample: the claim says at most one of `isLoading = true`,
non-empty results and a present error holds in every reachable state.  In
the reachable state where the mount listing failed with a structured error,
a retyped query succeeded with one record, and the user then typed `y`,
all three hold at once: the new fetch is loading, the old results are
still displayed state, and the stale error was never cleared. -/
theorem C3_counterexample_modes_not_exclusive :
    Reachable "http://x" "en" ⟨false⟩
      (appSearch "http://x" "en"
        (appComplete
          (appSearch "http://x" "en"
            (appComplete (initialApp "http://x" ⟨false⟩) "http://x/list/"
              (.axiosErrorStructured ⟨"bad request"⟩)) "z")
          "http://x/fwew/z" (.success [⟨"tsun"⟩])) "y")
    ∧ (appSearch "http://x" "en"
        (appComplete
          (appSearch "http://x" "en"
            (appComplete (initialApp "http://x" ⟨false⟩) "http://x/list/"
              (.axiosErrorStructured ⟨"bad request"⟩)) "z")
          "http://x/fwew/z" (.success [⟨"tsun"⟩])) "y").screen.isLoading
        = true
    ∧ (appSearch "http://x" "en"
        (appComplete
          (appSearch "http://x" "en"
            (appComplete (initialApp "http://x" ⟨false⟩) "http://x/list/"
              (.axiosErrorStructured ⟨"bad request"⟩)) "z")
          "http://x/fwew/z" (.success [⟨"tsun"⟩])) "y").screen.data ≠ []
    ∧ (appSearch "http://x" "en"
        (appComplete
          (appSearch "http://x" "en"
            (appComplete (initialApp "http://x" ⟨false⟩) "http://x/list/"
              (.axiosErrorStructured ⟨"bad request"⟩)) "z")
          "http://x/fwew/z" (.success [⟨"tsun"⟩])) "y").screen.err
        ≠ none := by
  refine ⟨?_, by decide, by decide, by decide⟩
  exact Relation.ReflTransGen.tail
    (Relation.ReflTransGen.tail
      (Relation.ReflTransGen.tail
        (Relation.ReflTransGen.tail Relation.ReflTransGen.refl
          (Step.complete _ "http://x/list/"
            (.axiosErrorStructured ⟨"bad request"⟩) (by decide)))
        (Step.search _ "z"))
      (Step.complete _ "http://x/fwew/z" (.success [⟨"tsun"⟩]) (by decide)))
    (Step.search _ "y")

/-- C3 amended: the active display mode is unique not because the three
state conditions exclude each other (they do not, see the counterexample)
but because the render branches on `isLoading`: in every state exactly one
of the loading spinner and the results area is shown. -/
theorem C3_display_mode_unique (s : SearchState) :
    (showsSpinner s = true ∧ showsResults s = false)
    ∨ (showsSpinner s = false ∧ showsResults s = true) := by
  cases h : s.isLoading <;> simp [showsSpinner, showsResults, h]

/-- C4 counterexample: the claim says a successful fetch carrying N
records leaves no error present.  In the reachable state where the mount
listing failed with a structured error and a later query `z` succeeded
with one record, the success left the stale error in place:
`results.length = 1` and `isLoading = false`, but `err` is still the old
error body. -/
theorem C4_counterexample_stale_error_after_success :
    Reachable "http://x" "en" ⟨false⟩
      (appComplete
        (appSearch "http://x" "en"
          (appComplete (initialApp "http://x" ⟨false⟩) "http://x/list/"
            (.axiosErrorStructured ⟨"no results"⟩)) "z")
        "http://x/fwew/z" (.success [⟨"word1"⟩]))
    ∧ (appComplete
        (appSearch "http://x" "en"
          (appComplete (initialApp "http://x" ⟨false⟩) "http://x/list/"
            (.axiosErrorStructured ⟨"no results"⟩)) "z")
        "http://x/fwew/z" (.success [⟨"word1"⟩])).screen.data.length = 1
    ∧ (appComplete
        (appSearch "http://x" "en"
          (appComplete (initialApp "http://x" ⟨false⟩) "http://x/list/"
            (.axiosErrorStructured ⟨"no results"⟩)) "z")
        "http://x/fwew/z" (.success [⟨"word1"⟩])).screen.isLoading = false
    ∧ (appComplete
        (appSearch "http://x" "en"
          (appComplete (initialApp "http://x" ⟨false⟩) "http://x/list/"
            (.axiosErrorStructured ⟨"no results"⟩)) "z")
        "http://x/fwew/z" (.success [⟨"word1"⟩])).screen.err
      = some ⟨"no results"⟩ := by
  refine ⟨?_, by decide, by decide, by decide⟩
  exact Relation.ReflTransGen.tail
    (Relation.ReflTransGen.tail
      (Relation.ReflTransGen.tail Relation.ReflTransGen.refl
        (Step.complete _ "http://x/list/"
          (.axiosErrorStructured ⟨"no results"⟩) (by decide)))
      (Step.search _ "z"))
    (Step.complete _ "http://x/fwew/z" (.success [⟨"word1"⟩]) (by decide))

/-- C4 amended: a successful fetch carrying N records yields
`results.length = N` and `isLoading = false`, and leaves `err` unchanged —
the success branch never clears a previously stored error, so `error` is
absent afterwards only if it was absent before. -/
theorem C4_success_sets_data_clears_loading (s : SearchState)
    (ws : List Word) :
    (applyOutcome s (.success ws)).data.length = ws.length
    ∧ (applyOutcome s (.success ws)).isLoading = false
    ∧ (applyOutcome s (.success ws)).err = s.err :=
  ⟨rfl, rfl, rfl⟩

end FwewScreen
